import Mathlib

/-!
Verification of the asharicloud webhook receiver.

This file gives a shallow embedding, in Lean, of the pure logic of the
webhook receiver and its dead-letter-queue (DLQ) processor:

* `generateCollectionName` — the partition namer of
  `src/handlers/webhook.handler.js` (and the identical static method of the
  monolithic handler).
* `sanitizeHeaders`, `jsonStringify`, `createHeadersAttribute`,
  `validateHeaders` — the header utilities of `src/utils/headers.util.js`.
* The dual-sink dispatcher's response composition and method gate of
  `src/handlers/webhook.handler.js` (the handler exported by `index.js`)
  and of the monolithic handler; the asynchronous store / publish branches
  are represented by their settled outcomes, and external effects (SSM
  secret fetch, SNS publish, SQS delete) by explicit outcome parameters.
* `classifyFailure` / `analyzeFailure` / `processDLQDecision` / `dlqLoop` —
  the failure analyzer and batch loop of `dlq-processor.js`; wall-clock
  time is an explicit `now` parameter, and `parseInt` of a missing or
  non-numeric `SentTimestamp` (a JavaScript `NaN`) is modelled by `none`.

Strings are modelled by Lean `String` with length counted in characters,
matching JavaScript `String.prototype.length` on the basic plane.
-/

/-! ## Character and substring utilities

JavaScript `String.prototype.includes` is a case-sensitive contiguous
substring test; `isPrefixChars` / `containsSeq` implement it on character
lists. -/

/-- Is `pat` a prefix of `s`? (character-by-character, case-sensitive). -/
def isPrefixChars : List Char → List Char → Bool
  | [], _ => true
  | _ :: _, [] => false
  | a :: as, b :: bs => a == b && isPrefixChars as bs

/-- Does `s` contain `pat` as a contiguous substring? -/
def containsSeq (pat : List Char) : List Char → Bool
  | [] => isPrefixChars pat []
  | c :: rest => isPrefixChars pat (c :: rest) || containsSeq pat rest

/-- JavaScript `s.includes(pat)`. -/
def strIncludes (s pat : String) : Bool :=
  containsSeq pat.data s.data

/-! ## Partition namer

`generateCollectionName` from `src/handlers/webhook.handler.js` lines
107–124 (textually identical in the monolithic handler):

* empty path or `"/"` maps to `"root"`;
* otherwise every character outside `[a-zA-Z0-9]` is replaced by `"-"`
  (the regex `/[^a-zA-Z0-9]/g`), leading and trailing `"-"` runs are
  removed (the regex `/^-+|-+$/g`);
* if nothing remains the name is `"unknown"`. -/

/-- One step of the regex replace `/[^a-zA-Z0-9]/g → "-"`. -/
def replaceNonAlnum (c : Char) : Char :=
  if c.isAlphanum then c else '-'

/-- Remove the leading run of dashes. -/
def dropDashes (l : List Char) : List Char :=
  l.dropWhile (fun c => c == '-')

/-- Remove the leading and the trailing run of dashes
(the regex replace `/^-+|-+$/g → ""`). -/
def stripDashes (l : List Char) : List Char :=
  ((dropDashes l).reverse.dropWhile (fun c => c == '-')).reverse

/-- `generateCollectionName` of the webhook handler, translated from the
source. Total by construction (the source never throws on a string). -/
def generateCollectionName (path : String) : String :=
  if path = "" ∨ path = "/" then "root"
  else if stripDashes (path.data.map replaceNonAlnum) = [] then "unknown"
  else String.mk (stripDashes (path.data.map replaceNonAlnum))

/-! ## Header utilities (`src/utils/headers.util.js`)

Header maps are modelled as association lists of string keys and string
values, in object-entry order. `JSON.stringify` of such a map is modelled
by `jsonStringify`, including JSON string escaping. -/

/-- Four lowercase hexadecimal digits of `n` (for a `\u00XX` escape). -/
def hexDigit (n : Nat) : Char :=
  if n < 10 then Char.ofNat (48 + n) else Char.ofNat (87 + n)

/-- JSON escaping of one character, as `JSON.stringify` performs it:
quote, backslash, the named control escapes, `\u00XX` for the remaining
control characters, everything else verbatim. -/
def escapeJsonChar (c : Char) : List Char :=
  if c = '"' then ['\\', '"']
  else if c = '\\' then ['\\', '\\']
  else if c = '\x08' then ['\\', 'b']
  else if c = '\x09' then ['\\', 't']
  else if c = '\x0a' then ['\\', 'n']
  else if c = '\x0c' then ['\\', 'f']
  else if c = '\x0d' then ['\\', 'r']
  else if c.toNat < 0x20 then
    ['\\', 'u', '0', '0', hexDigit (c.toNat / 16), hexDigit (c.toNat % 16)]
  else [c]

/-- A JSON string literal for `s`. -/
def jsonQuote (s : String) : String :=
  String.mk ('"' :: (s.data.flatMap escapeJsonChar) ++ ['"'])

/-- `JSON.stringify` of a string-valued object given by its entry list. -/
def jsonStringify (hs : List (String × String)) : String :=
  "\x7b" ++ String.intercalate ","
    (hs.map (fun kv => jsonQuote kv.1 ++ ":" ++ jsonQuote kv.2)) ++ "\x7d"

/-- JavaScript `toLowerCase`, character by character. -/
def lowercase (s : String) : String :=
  String.mk (s.data.map Char.toLower)

/-- `HeadersUtil.sanitizeHeaders`: drop every entry whose lower-cased key
is exactly `"headers"`; everything else passes through unchanged. -/
def sanitizeHeaders (hs : List (String × String)) : List (String × String) :=
  hs.filter (fun kv => !(lowercase kv.1 == "headers"))

/-- The fixed truncation marker appended by `createHeadersAttribute`
(19 characters, against a reserved budget of 20). -/
def truncatedSuffix : String := ",\"_truncated\":true\x7d"

/-- `HeadersUtil.createHeadersAttribute` (lines 48–84): `none` models the
source's `null` (empty map after sanitization); otherwise the sanitized
map's JSON if it fits in `maxSize`, else the JSON cut to `maxSize − 20`
characters (JavaScript `substring` clamps a negative bound to 0, as `Nat`
subtraction does) followed by `truncatedSuffix`. The `DataType: "String"`
wrapper carries no information and is omitted. -/
def createHeadersAttribute (hs : List (String × String)) (maxSize : Nat) : Option String :=
  let sanitized := sanitizeHeaders hs
  if sanitized.isEmpty then none
  else
    let headersJson := jsonStringify sanitized
    if headersJson.length ≤ maxSize then some headersJson
    else some (String.mk (headersJson.data.take (maxSize - 20) ++ truncatedSuffix.data))

/-- Case-insensitive substring test: the regexes `/script/i` and
`/javascript:/i` with their lowercase patterns. -/
def testCaseInsensitive (pat : String) (s : String) : Bool :=
  containsSeq pat.data (s.data.map Char.toLower)

/-- Index of the first `>` at or after index `i`, scanning `l` (which is
the suffix of the subject starting at `i`). -/
def findGtIndex : List Char → Nat → Option Nat
  | [], _ => none
  | c :: rest, i => if c == '>' then some i else findGtIndex rest (i + 1)

/-- End index (exclusive) of the leftmost `/<[^>]*>/` match whose `<` is
at or after index `i`; `l` is the suffix of the subject starting at `i`.
A `<` matches up to the first later `>` (the greedy `[^>]*` then the
required `>`). -/
def htmlScan : List Char → Nat → Option Nat
  | [], _ => none
  | c :: rest, i =>
      if c == '<' then
        match findGtIndex rest (i + 1) with
        | some j => some (j + 1)
        | none => htmlScan rest (i + 1)
      else htmlScan rest (i + 1)

/-- Does `s` contain an HTML tag at all (the regex `/<[^>]*>/` against the
whole string)? -/
def containsHtmlTag (s : String) : Bool :=
  (htmlScan s.data 0).isSome

/-- One `test` call on the global regex `/<[^>]*>/g`: the search starts at
the regex's saved `lastIndex`; a hit advances `lastIndex` past the match,
a miss resets it to 0. The `validateHeaders` source creates this regex
once per call and reuses it across every key and value it checks, so the
state threads through the whole header map. -/
def htmlTagTestG (s : String) (lastIndex : Nat) : Bool × Nat :=
  match htmlScan (s.data.drop lastIndex) lastIndex with
  | some e => (true, e)
  | none => (false, 0)

/-- The source's `pattern.test(headerValue) || pattern.test(key)` for the
global HTML-tag regex: the value is tested first and the key only when the
value missed, each call updating `lastIndex`. -/
def htmlTagCheckEntry (k v : String) (lastIndex : Nat) : Bool × Nat :=
  let rv := htmlTagTestG v lastIndex
  if rv.1 then rv else htmlTagTestG k rv.2

/-- The issue list `validateHeaders` produces for a single header entry:
the oversize check (8192-character bound, JavaScript `.length`) followed
by the three suspicious patterns in their fixed order. `htmlHit` is the
outcome of the stateful HTML-tag check for this entry. -/
def headerIssues (k v : String) (htmlHit : Bool) : List String :=
  (if v.length > 8192 then
    ["Header \"" ++ k ++ "\" exceeds maximum length (" ++ toString v.length ++ " bytes)"]
  else [])
  ++ (if testCaseInsensitive "script" v || testCaseInsensitive "script" k then
    ["Script content detected in headers in header \"" ++ k ++ "\""]
  else [])
  ++ (if htmlHit then
    ["HTML tags detected in headers in header \"" ++ k ++ "\""]
  else [])
  ++ (if testCaseInsensitive "javascript:" v || testCaseInsensitive "javascript:" k then
    ["JavaScript protocol detected in headers in header \"" ++ k ++ "\""]
  else [])

/-- The entry loop of `validateHeaders`, threading the HTML-tag regex's
`lastIndex` across entries exactly as the reused `/<[^>]*>/g` object does. -/
def validateHeadersGo : List (String × String) → Nat → List String
  | [], _ => []
  | (k, v) :: rest, lastIndex =>
      let rh := htmlTagCheckEntry k v lastIndex
      headerIssues k v rh.1 ++ validateHeadersGo rest rh.2

/-- `HeadersUtil.validateHeaders` (lines 155–189): the issue list over all
entries; the source's `isValid` is `issues.isEmpty`. Total by
construction (the source never throws on a header map). -/
def validateHeaders (hs : List (String × String)) : List String :=
  validateHeadersGo hs 0

/-! ## Webhook handler (`src/handlers/webhook.handler.js`, entry point of
`index.js`, and the superseded monolithic handler)

The asynchronous store and publish branches both recover their own errors
into an operation-result value (`Promise.allSettled` then never sees a
rejection from them), so the dispatcher is a pure function of the two
settled outcomes. The SSM secret fetch — the one awaited call outside the
two tracked branches — is an explicit `Except` parameter; its `error` case
models the exception caught by the handler's top-level `try`. -/

/-- The per-branch outcome object (`{ success, operation, error }`);
the response composition reads only `success`. -/
structure OperationResult where
  success : Bool
  operation : String
  error : Option String
deriving Repr, DecidableEq

/-- The HTTP-style response: `statusCode` plus the body fields the claims
mention. `opsMongo` / `opsSns` are `operations_status.mongodb` /
`operations_status.sns`; `allowedList` is `allowed_methods` of a 405. -/
structure WebhookResponse where
  statusCode : Nat
  message : String
  error : Option String := none
  allowedList : Option (List String) := none
  database : Option String := none
  collection : Option String := none
  opsMongo : Option String := none
  opsSns : Option String := none
deriving Repr, DecidableEq

/-- The fixed allow-list of mutating methods (`config.webhook.allowedMethods`,
also hard-coded in both 405 bodies). -/
def allowedMethods : List String := ["POST", "PUT", "PATCH", "DELETE"]

/-- `validateMethod` of the modular handler. -/
def validateMethod (method : String) : Bool :=
  allowedMethods.contains method

/-- The 405 response of the dedicated GET branch. -/
def rejectGET : WebhookResponse :=
  { statusCode := 405
    message := "Method Not Allowed"
    error := some "GET requests are not supported by this webhook endpoint"
    allowedList := some allowedMethods }

/-- The 405 response of the modular handler's allow-list branch. -/
def rejectMethod (method : String) : WebhookResponse :=
  { statusCode := 405
    message := "Method Not Allowed"
    error := some (method ++ " requests are not supported")
    allowedList := some allowedMethods }

/-- The 500 response of the top-level catch. -/
def errorResponse (errMsg : String) : WebhookResponse :=
  { statusCode := 500
    message := "Error processing webhook"
    error := some errMsg }

/-- The four-way message of the response composition. -/
def webhookMessage (mongoSuccess snsSuccess : Bool) : String :=
  if mongoSuccess && snsSuccess then
    "Webhook received, logged, stored, and published successfully"
  else if mongoSuccess && !snsSuccess then
    "Webhook received, logged, and stored successfully. SNS publishing failed."
  else if !mongoSuccess && snsSuccess then
    "Webhook received, logged, and published successfully. MongoDB storage failed."
  else
    "Webhook received and logged successfully. Both MongoDB storage and SNS publishing failed."

/-- An `operations_status` entry: `"success"` or `"failed"`. -/
def statusWord (b : Bool) : String :=
  if b then "success" else "failed"

/-- The settle-all response composition shared verbatim by both handlers
(`processWebhook` lines 266–322 of the modular handler): `mongoResult` and
`snsResult` are `results[0]?.value` and `results[1]?.value`; an absent
mongo result defaults to failure (`?? false`), an absent SNS result — SNS
unconfigured, so the operations array had one element — defaults to
success (`?? true`). The status code is 200 in every case. -/
def composeDispatchResponse (mongoResult snsResult : Option OperationResult)
    (dbName collName : String) : WebhookResponse :=
  let mongoSuccess := (mongoResult.map OperationResult.success).getD false
  let snsSuccess := (snsResult.map OperationResult.success).getD true
  { statusCode := 200
    message := webhookMessage mongoSuccess snsSuccess
    database := some dbName
    collection := some collName
    opsMongo := some (statusWord mongoSuccess)
    opsSns := some (statusWord snsSuccess) }

/-- `storeWebhook` of the modular handler (lines 182–187): a stub that
always resolves to `{ success: true, operation: "mongodb" }`. -/
def storeWebhook : OperationResult :=
  { success := true, operation := "mongodb", error := none }

/-- The settled SNS branch: only built when a fan-out topic is configured;
the branch catches its own publish error into `success := false`. -/
def snsBranchResult (snsConfigured snsPublishOk : Bool) : Option OperationResult :=
  if snsConfigured then
    some { success := snsPublishOk, operation := "sns"
           error := if snsPublishOk then none else some "SNS publishing failed" }
  else none

/-- `processWebhook` of the modular handler: secret resolution (whose
failure the top-level catch turns into a 500), then the concurrent
dispatch with the always-successful store stub, then the composition. -/
def modularProcessWebhook (secretFetch : Except String String)
    (snsConfigured snsPublishOk : Bool) (path dbName : String) : WebhookResponse :=
  match secretFetch with
  | .error e => errorResponse e
  | .ok _ =>
      composeDispatchResponse (some storeWebhook)
        (snsBranchResult snsConfigured snsPublishOk)
        dbName (generateCollectionName path)

/-- The modular handler (lines 347–390): the dedicated GET rejection, then
the allow-list gate, then `processWebhook`. This is the handler `index.js`
exports. -/
def modularHandler (method : String) (secretFetch : Except String String)
    (snsConfigured snsPublishOk : Bool) (path dbName : String) : WebhookResponse :=
  if method == "GET" then rejectGET
  else if !validateMethod method then rejectMethod method
  else modularProcessWebhook secretFetch snsConfigured snsPublishOk path dbName

/-- The monolithic handler's processing body: same secret resolution and
composition, but its store branch really runs and catches its own error
into `success := mongoStoreOk`. -/
def monolithProcessWebhook (secretFetch : Except String String)
    (mongoStoreOk snsConfigured snsPublishOk : Bool) (path dbName : String) : WebhookResponse :=
  match secretFetch with
  | .error e => errorResponse e
  | .ok _ =>
      composeDispatchResponse
        (some { success := mongoStoreOk, operation := "mongodb"
                error := if mongoStoreOk then none else some "MongoDB storage failed" })
        (snsBranchResult snsConfigured snsPublishOk)
        dbName (generateCollectionName path)

/-- The monolithic handler: its only routing gate is the GET rejection. -/
def monolithHandler (method : String) (secretFetch : Except String String)
    (mongoStoreOk snsConfigured snsPublishOk : Bool) (path dbName : String) : WebhookResponse :=
  if method == "GET" then rejectGET
  else monolithProcessWebhook secretFetch mongoStoreOk snsConfigured snsPublishOk path dbName

/-! ## Dead-letter pipeline (`dlq-processor.js`)

`Date.now()` is an explicit `now` parameter (milliseconds).
`failureInfo.sentTimestamp` holds the `parseInt` of the record's
`SentTimestamp` attribute: `none` models a JavaScript `NaN` (attribute
absent or not parsing as an integer), on which every comparison is false,
so the age gate is skipped. -/

/-- The failure information extracted from one DLQ record
(`processDLQMessage` lines 42–52). `receiveCount` is the numeric value of
`ApproximateReceiveCount` (defaulted to 1 at extraction). -/
structure FailureInfo where
  messageId : String
  receiveCount : Nat
  sentTimestamp : Option Int
  originalTopicArn : Option String
  failureReason : String
  subscriberEndpoint : Option String
  protocol : Option String
deriving Repr, DecidableEq

/-- The analysis record `{ shouldRetry, isCritical, failureType,
recommendations }`. -/
structure FailureAnalysis where
  shouldRetry : Bool
  isCritical : Bool
  failureType : String
  recommendations : List String
deriving Repr, DecidableEq

/-- The ordered substring classification of the free-text failure reason
(`analyzeFailure` lines 122–136): `"timeout"` then the literal digit
`"5"` then the literal digit `"4"`, case-sensitively, as
`String.prototype.includes` is. -/
def classifyFailure (reason : String) : FailureAnalysis :=
  if strIncludes reason "timeout" then
    { shouldRetry := true, isCritical := false, failureType := "timeout"
      recommendations := ["Consider increasing timeout for subscriber"] }
  else if strIncludes reason "5" then
    { shouldRetry := true, isCritical := false, failureType := "server_error"
      recommendations := ["Subscriber experiencing server errors"] }
  else if strIncludes reason "4" then
    { shouldRetry := false, isCritical := false, failureType := "client_error"
      recommendations := ["Check subscriber configuration or webhook payload"] }
  else
    { shouldRetry := false, isCritical := false, failureType := "unknown"
      recommendations := [] }

/-- The critical-path test (`webhookEvent.path?.includes(...)`); `none`
models an event without a `path` (optional chaining yields `undefined`,
falsy). -/
def pathCritical : Option String → Bool
  | none => false
  | some p => strIncludes p "/payment" || strIncludes p "/security" || strIncludes p "/critical"

/-- 24 hours in milliseconds: the age gate `messageAgeHours > 24` is
exactly `now − sentTimestamp > 86400000`. -/
def dayMs : Int := 86400000

/-- `analyzeFailure(failureInfo, webhookEvent)` (lines 113–157):
classification, the critical-path flag, then the age gate, which forces
`shouldRetry := false` (appending its recommendation) only when the
message age is a number greater than 24 hours — a `NaN` age (`none`)
never triggers it. -/
def analyzeFailure (now : Int) (info : FailureInfo) (eventPath : Option String) : FailureAnalysis :=
  let classified := classifyFailure info.failureReason
  let withCritical := { classified with isCritical := pathCritical eventPath }
  match info.sentTimestamp with
  | none => withCritical
  | some t =>
      if now - t > dayMs then
        { withCritical with
            shouldRetry := false
            recommendations := withCritical.recommendations ++ ["Message too old for retry"] }
      else withCritical

/-- What `processDLQMessage` does about redelivery. -/
inductive RetryDecision where
  /-- `retryDelivery` republished the original event to the original topic. -/
  | retried (topicArn : String)
  /-- `retryDelivery` was called but found no original topic, so nothing
  was published. -/
  | retrySkippedNoTopic
  /-- The retry branch was not taken (critical-failure notification may
  have been sent instead). -/
  | notRetried
deriving Repr, DecidableEq

/-- The retry orchestration of `processDLQMessage` (lines 74–91) plus the
publish condition of `retryDelivery` (line 216): redeliver only if
`analysis.shouldRetry && receiveCount < 3`, and only to a present
original topic. Returns the decision with the analysis that produced it. -/
def processDLQDecision (now : Int) (info : FailureInfo) (eventPath : Option String) :
    RetryDecision × FailureAnalysis :=
  let analysis := analyzeFailure now info eventPath
  if analysis.shouldRetry && decide (info.receiveCount < 3) then
    match info.originalTopicArn with
    | some arn => (.retried arn, analysis)
    | none => (.retrySkippedNoTopic, analysis)
  else (.notRetried, analysis)

/-! ### The batch loop (`handler`, lines 313–361)

Per-record processing (`processDLQMessage`) and the SQS delete are awaited
external operations; the loop is a pure function of their outcomes, given
by the `process` and `deleteOutcome` parameters (an `Except.error` models
a thrown exception). The loop also emits an event trace recording, in
program order, what happened for each record index. -/

/-- One per-record entry of the handler's `results` array: the fields the
summary reads. -/
structure DLQResultEntry where
  status : String
  messageId : String
deriving Repr, DecidableEq

/-- One DLQ record, reduced to the fields the batch loop itself touches. -/
structure DLQRecord where
  messageId : String
  receiptHandle : String
deriving Repr, DecidableEq

/-- An observable step of the batch loop, tagged with the record's
position in the batch. -/
inductive DLQEvent where
  /-- `processDLQMessage` for record `idx` returned without throwing. -/
  | processedEvt (idx : Nat)
  /-- `processDLQMessage` for record `idx` threw. -/
  | failedEvt (idx : Nat)
  /-- The SQS delete for record `idx` was issued (with its receipt handle). -/
  | deleteIssued (idx : Nat) (receiptHandle : String)
deriving Repr, DecidableEq

/-- The handler's `for` loop from record index `idx`: per record, a `try`
that awaits processing, pushes the result, and — only when a DLQ URL is
configured — issues the delete; the `catch` pushes a failed entry and
issues no delete, so one record's exception never reaches the next
record. A delete that itself throws lands in the same `catch`, pushing a
second entry for that record. -/
def dlqLoop (process : DLQRecord → Except String FailureAnalysis)
    (deleteOutcome : String → Except String Unit) (dlqConfigured : Bool) :
    Nat → List DLQRecord → List DLQResultEntry × List DLQEvent
  | _, [] => ([], [])
  | idx, r :: rest =>
      let tail := dlqLoop process deleteOutcome dlqConfigured (idx + 1) rest
      match process r with
      | .error _ =>
          (⟨"failed", r.messageId⟩ :: tail.1, .failedEvt idx :: tail.2)
      | .ok _ =>
          if dlqConfigured then
            match deleteOutcome r.receiptHandle with
            | .ok _ =>
                (⟨"processed", r.messageId⟩ :: tail.1,
                 .processedEvt idx :: .deleteIssued idx r.receiptHandle :: tail.2)
            | .error _ =>
                (⟨"processed", r.messageId⟩ :: ⟨"failed", r.messageId⟩ :: tail.1,
                 .processedEvt idx :: .deleteIssued idx r.receiptHandle :: tail.2)
          else
            (⟨"processed", r.messageId⟩ :: tail.1, .processedEvt idx :: tail.2)

/-- The handler's summary `{ processed, failed, total }` over the
`results` array. -/
def dlqSummary (results : List DLQResultEntry) : Nat × Nat × Nat :=
  ((results.filter (fun e => e.status == "processed")).length,
   (results.filter (fun e => e.status == "failed")).length,
   results.length)

/-! ## Lemmas about the partition namer -/

/-- A member of `dropWhile p l` is a member of `l`. -/
theorem mem_of_mem_dropWhile {p : α → Bool} {l : List α} {x : α}
    (h : x ∈ l.dropWhile p) : x ∈ l :=
  List.Sublist.mem h (List.dropWhile_sublist p)

/-- The head of `dropWhile p l`, when present, fails `p`. -/
theorem head?_dropWhile_ne (p : α → Bool) {l : List α} {x : α}
    (h : (l.dropWhile p).head? = some x) : p x = false := by
  have hnot := List.head?_dropWhile_not p l
  rw [h] at hnot
  exact hnot

/-- A nonempty suffix shares its last element with the whole list. -/
theorem getLast?_of_suffix {α : Type} {l₁ l₂ : List α} (h : l₁ <:+ l₂) (hne : l₁ ≠ []) :
    l₂.getLast? = l₁.getLast? := by
  obtain ⟨t, rfl⟩ := h
  rw [List.getLast?_append]
  cases hl : l₁.getLast? with
  | none => exact absurd (List.getLast?_eq_none_iff.mp hl) hne
  | some y => rfl

/-- Characters survive `stripDashes`. -/
theorem mem_of_mem_stripDashes {l : List Char} {c : Char} (h : c ∈ stripDashes l) : c ∈ l := by
  unfold stripDashes at h
  rw [List.mem_reverse] at h
  have h2 := mem_of_mem_dropWhile h
  rw [List.mem_reverse] at h2
  exact mem_of_mem_dropWhile (h2 : c ∈ dropDashes l)

/-- The last character of `stripDashes l`, when present, is not a dash. -/
theorem stripDashes_getLast?_ne {l : List Char} {x : Char}
    (h : (stripDashes l).getLast? = some x) : (x == '-') = false := by
  unfold stripDashes at h
  rw [List.getLast?_reverse] at h
  exact head?_dropWhile_ne (fun c => c == '-') h

/-- The first character of `stripDashes l`, when present, is not a dash. -/
theorem stripDashes_head?_ne {l : List Char} {x : Char}
    (h : (stripDashes l).head? = some x) : (x == '-') = false := by
  unfold stripDashes at h
  rw [List.head?_reverse] at h
  have hne : (dropDashes l).reverse.dropWhile (fun c => c == '-') ≠ [] := by
    intro he
    rw [he] at h
    simp at h
  have hsfx := getLast?_of_suffix
    (List.dropWhile_suffix (l := (dropDashes l).reverse) (fun c => c == '-')) hne
  rw [List.getLast?_reverse, h] at hsfx
  unfold dropDashes at hsfx
  exact head?_dropWhile_ne (fun c => c == '-') hsfx

/-- If `p` holds of every element, `dropWhile p` drops everything. -/
theorem dropWhile_eq_nil_of_all {p : α → Bool} :
    ∀ {l : List α}, (∀ x ∈ l, p x = true) → l.dropWhile p = []
  | [], _ => rfl
  | a :: as, h => by
      rw [List.dropWhile_cons_of_pos (h a (List.mem_cons_self a as))]
      exact dropWhile_eq_nil_of_all (fun x hx => h x (List.mem_cons_of_mem a hx))

/-- A path with no alphanumeric character at all strips to nothing. -/
theorem stripDashes_map_eq_nil {l : List Char}
    (h : ∀ c ∈ l, c.isAlphanum = false) : stripDashes (l.map replaceNonAlnum) = [] := by
  have hall : ∀ x ∈ l.map replaceNonAlnum, (x == '-') = true := by
    intro x hx
    obtain ⟨a, ha, rfl⟩ := List.mem_map.mp hx
    simp [replaceNonAlnum, h a ha]
  unfold stripDashes dropDashes
  rw [dropWhile_eq_nil_of_all hall]
  rfl

/-! ## Claim C3 — the partition namer

The claim's two "if and only if" clauses fail: `generateCollectionName`
maps the path `"root"` (neither empty nor `"/"`) to `"root"`, and the
path `"unknown"` to `"unknown"` although stripping its non-alphanumerics
leaves `"unknown"`; moreover `"/"` strips to empty yet maps to `"root"`,
not `"unknown"`. The forward directions hold, as does the character-set
shape. -/

/-- C3, counterexample: the claim says the result is `"root"` if and only
if the path is empty or `"/"`; the path `"root"` is neither, yet its
partition name is `"root"`. -/
theorem c3_partition_namer_counterexample :
    generateCollectionName "root" = "root"
    ∧ ¬(("root" : String) = "" ∨ ("root" : String) = "/") :=
  ⟨by decide, by decide⟩

/-- C3 (amended): for every path, the partition name uses only characters
of `[A-Za-z0-9-]` with no leading or trailing `"-"`; it is `"root"` if
the path is empty or `"/"`; and for any other path whose characters are
all non-alphanumeric it is `"unknown"`. (The claim's converse "only if"
directions are refuted by `c3_partition_namer_counterexample`.) The
function is total, hence never throws. -/
theorem c3_partition_namer_amended (path : String) :
    (∀ c ∈ (generateCollectionName path).data, c.isAlphanum = true ∨ c = '-')
    ∧ (generateCollectionName path).data.head? ≠ some '-'
    ∧ (generateCollectionName path).data.getLast? ≠ some '-'
    ∧ ((path = "" ∨ path = "/") → generateCollectionName path = "root")
    ∧ (path ≠ "" → path ≠ "/" → path.data.filter (fun c => c.isAlphanum) = [] →
        generateCollectionName path = "unknown") := by
  unfold generateCollectionName
  by_cases hroot : path = "" ∨ path = "/"
  · rw [if_pos hroot]
    refine ⟨by decide, by decide, by decide, fun _ => rfl, fun h1 h2 _ => ?_⟩
    rcases hroot with h | h
    · exact absurd h h1
    · exact absurd h h2
  · rw [if_neg hroot]
    by_cases hnil : stripDashes (path.data.map replaceNonAlnum) = []
    · rw [if_pos hnil]
      exact ⟨by decide, by decide, by decide, fun h => absurd h hroot, fun _ _ _ => rfl⟩
    · rw [if_neg hnil]
      refine ⟨?_, ?_, ?_, fun h => absurd h hroot, fun _ _ hfil => ?_⟩
      · intro c hc
        have hc2 : c ∈ path.data.map replaceNonAlnum := mem_of_mem_stripDashes hc
        obtain ⟨a, _, rfl⟩ := List.mem_map.mp hc2
        by_cases ha : a.isAlphanum
        · left
          simp [replaceNonAlnum, ha]
        · right
          simp [replaceNonAlnum, ha]
      · intro h
        have hne := stripDashes_head?_ne (l := path.data.map replaceNonAlnum) h
        simp at hne
      · intro h
        have hne := stripDashes_getLast?_ne (l := path.data.map replaceNonAlnum) h
        simp at hne
      · have hall : ∀ c ∈ path.data, c.isAlphanum = false := by
          intro c hc
          simpa using List.filter_eq_nil_iff.mp hfil c hc
        exact absurd (stripDashes_map_eq_nil hall) hnil

/-- C3, witness: the amended theorem at the concrete paths `""` and
`"!!!"`. -/
theorem c3_partition_namer_witness :
    generateCollectionName "" = "root" ∧ generateCollectionName "!!!" = "unknown" :=
  ⟨(c3_partition_namer_amended "").2.2.2.1 (Or.inl rfl),
   (c3_partition_namer_amended "!!!").2.2.2.2 (by decide) (by decide) (by decide)⟩

/-! ## Claim C4 — headers-attribute truncation

The truncation arithmetic (`maxSize − 20` kept characters plus a
19-character marker, hence output length `maxSize − 1`) holds whenever
`maxSize ≥ 20`. For `maxSize < 20` JavaScript `substring(0, maxSize-20)`
clamps its negative bound to 0, so the output is the bare 19-character
marker, not `maxSize − 1` characters — the claim as stated fails there. -/

/-- Evaluation of `createHeadersAttribute` on the truncation branch. -/
theorem createHeadersAttribute_eq_trunc {hs : List (String × String)} {maxSize : Nat}
    (hne : (sanitizeHeaders hs).isEmpty = false)
    (hbig : ¬ (jsonStringify (sanitizeHeaders hs)).length ≤ maxSize) :
    createHeadersAttribute hs maxSize =
      some (String.mk ((jsonStringify (sanitizeHeaders hs)).data.take (maxSize - 20)
        ++ truncatedSuffix.data)) := by
  unfold createHeadersAttribute
  simp [hne, hbig]

/-- C4, counterexample: with `maxSize = 10` the header map
`[("a", "0123456789x")]` serializes to 19 > 10 characters, but the
returned string has length 19, not `maxSize − 1 = 9`. -/
theorem c4_truncation_counterexample :
    (jsonStringify (sanitizeHeaders [("a", "0123456789x")])).length = 19
    ∧ (createHeadersAttribute [("a", "0123456789x")] 10).map String.length = some 19
    ∧ (19 : Nat) ≠ 10 - 1 :=
  ⟨by decide, by decide, by decide⟩

/-- C4 (amended): provided `maxSize ≥ 20`, a header map whose sanitized
JSON serialization is longer than `maxSize` yields the serialization cut
to `maxSize − 20` characters plus the fixed truncation marker — a string
of length exactly `maxSize − 1` (999 for `maxSize = 1000`) ending in the
marker; a serialization of length at most `maxSize` (from a nonempty
sanitized map) is returned verbatim. -/
theorem c4_truncation_amended (hs : List (String × String)) (maxSize : Nat) :
    (20 ≤ maxSize → maxSize < (jsonStringify (sanitizeHeaders hs)).length →
      ∃ s, createHeadersAttribute hs maxSize = some s
        ∧ s.length = maxSize - 1
        ∧ truncatedSuffix.data <:+ s.data)
    ∧ ((jsonStringify (sanitizeHeaders hs)).length ≤ maxSize → sanitizeHeaders hs ≠ [] →
      createHeadersAttribute hs maxSize = some (jsonStringify (sanitizeHeaders hs))) := by
  constructor
  · intro h20 hbig
    have hne : (sanitizeHeaders hs).isEmpty = false := by
      cases he : (sanitizeHeaders hs).isEmpty
      · rfl
      · exfalso
        rw [List.isEmpty_iff.mp he] at hbig
        have h2 : (jsonStringify ([] : List (String × String))).length = 2 := by decide
        omega
    have heval := createHeadersAttribute_eq_trunc hne (Nat.not_le.mpr hbig)
    refine ⟨_, heval, ?_, List.suffix_append _ _⟩
    have hsuf : truncatedSuffix.data.length = 19 := by decide
    show (List.take (maxSize - 20) (jsonStringify (sanitizeHeaders hs)).data
      ++ truncatedSuffix.data).length = maxSize - 1
    rw [List.length_append, List.length_take, hsuf]
    have hlen : (jsonStringify (sanitizeHeaders hs)).data.length
        = (jsonStringify (sanitizeHeaders hs)).length := rfl
    omega
  · intro hfit hne
    unfold createHeadersAttribute
    have hne2 : (sanitizeHeaders hs).isEmpty = false := by
      cases he : (sanitizeHeaders hs).isEmpty
      · rfl
      · exact absurd (List.isEmpty_iff.mp he) hne
    simp [hne2, hfit]

/-- C4, witness: the amended theorem at `maxSize = 20` (truncation branch)
and at `maxSize = 50` (verbatim branch) on concrete header maps. -/
theorem c4_truncation_witness :
    (∃ s, createHeadersAttribute [("k", "aaaaaaaaaaaaaaaaaaaaaaaaa")] 20 = some s
      ∧ s.length = 20 - 1
      ∧ truncatedSuffix.data <:+ s.data)
    ∧ createHeadersAttribute [("k", "v")] 50
        = some (jsonStringify (sanitizeHeaders [("k", "v")])) :=
  ⟨(c4_truncation_amended [("k", "aaaaaaaaaaaaaaaaaaaaaaaaa")] 20).1 (by decide) (by decide),
   (c4_truncation_amended [("k", "v")] 50).2 (by decide) (by decide)⟩

/-! ## Claims C1, C5, C9 — dispatcher, method gate, store stub -/

/-- C1: for every combination of settled branch outcomes the dispatcher
composes a 200 response whose `operations_status` reports each branch as
`"success"` or `"failed"` accordingly; the both-failed message differs
from the both-success message; with no fan-out topic configured the
fan-out outcome is vacuously `"success"`; and — for the monolithic and
the modular handler alike — a non-200 terminal response arises only from
the routing rejection or from a failure outside the two tracked branches
(the secret fetch). Both branches are awaited: the composition consumes
both settled results. -/
theorem c1_dispatcher_settle_all (mongoOk snsOk snsConfigured : Bool)
    (method uri path dbName : String) (secretFetch : Except String String)
    (mongoErr snsErr : Option String) :
    ((composeDispatchResponse (some ⟨mongoOk, "mongodb", mongoErr⟩)
        (some ⟨snsOk, "sns", snsErr⟩) dbName (generateCollectionName path)).statusCode = 200
      ∧ (composeDispatchResponse (some ⟨mongoOk, "mongodb", mongoErr⟩)
          (some ⟨snsOk, "sns", snsErr⟩) dbName (generateCollectionName path)).opsMongo
        = some (statusWord mongoOk)
      ∧ (composeDispatchResponse (some ⟨mongoOk, "mongodb", mongoErr⟩)
          (some ⟨snsOk, "sns", snsErr⟩) dbName (generateCollectionName path)).opsSns
        = some (statusWord snsOk))
    ∧ webhookMessage false false ≠ webhookMessage true true
    ∧ (monolithProcessWebhook (Except.ok uri) mongoOk false snsOk path dbName).opsSns
        = some "success"
    ∧ ((monolithHandler method secretFetch mongoOk snsConfigured snsOk path dbName).statusCode
          = 200
        ∨ ((monolithHandler method secretFetch mongoOk snsConfigured snsOk path dbName).statusCode
            = 405 ∧ method = "GET")
        ∨ ((monolithHandler method secretFetch mongoOk snsConfigured snsOk path dbName).statusCode
            = 500 ∧ ∃ e, secretFetch = Except.error e))
    ∧ ((modularHandler method secretFetch snsConfigured snsOk path dbName).statusCode = 200
        ∨ ((modularHandler method secretFetch snsConfigured snsOk path dbName).statusCode = 405
            ∧ validateMethod method = false)
        ∨ ((modularHandler method secretFetch snsConfigured snsOk path dbName).statusCode = 500
            ∧ ∃ e, secretFetch = Except.error e)) := by
  refine ⟨⟨rfl, rfl, rfl⟩, by decide, rfl, ?_, ?_⟩
  · cases hgm : (method == "GET") with
    | true =>
        exact Or.inr (Or.inl ⟨by simp [monolithHandler, hgm, rejectGET], eq_of_beq hgm⟩)
    | false =>
        cases secretFetch with
        | error e =>
            exact Or.inr (Or.inr ⟨by
              simp [monolithHandler, hgm, monolithProcessWebhook, errorResponse], e, rfl⟩)
        | ok u =>
            exact Or.inl (by
              simp [monolithHandler, hgm, monolithProcessWebhook, composeDispatchResponse])
  · cases hgm : (method == "GET") with
    | true =>
        refine Or.inr (Or.inl ⟨by simp [modularHandler, hgm, rejectGET], ?_⟩)
        rw [eq_of_beq hgm]
        decide
    | false =>
        cases hv : validateMethod method with
        | false =>
            exact Or.inr (Or.inl ⟨by simp [modularHandler, hgm, hv, rejectMethod], rfl⟩)
        | true =>
            cases secretFetch with
            | error e =>
                exact Or.inr (Or.inr ⟨by
                  simp [modularHandler, hgm, hv, modularProcessWebhook, errorResponse], e, rfl⟩)
            | ok u =>
                exact Or.inl (by
                  simp [modularHandler, hgm, hv, modularProcessWebhook, composeDispatchResponse])

/-- C1, witness: the theorem at a concrete store-failed / publish-ok
combination, read back as concrete response facts. -/
theorem c1_dispatcher_settle_all_witness :
    (composeDispatchResponse (some ⟨false, "mongodb", some "boom"⟩)
      (some ⟨true, "sns", none⟩) "db" (generateCollectionName "/p")).statusCode = 200
    ∧ (composeDispatchResponse (some ⟨false, "mongodb", some "boom"⟩)
        (some ⟨true, "sns", none⟩) "db" (generateCollectionName "/p")).opsMongo
      = some (statusWord false) :=
  ⟨(c1_dispatcher_settle_all false true true "POST" "uri" "/p" "db"
      (Except.ok "uri") (some "boom") none).1.1,
   (c1_dispatcher_settle_all false true true "POST" "uri" "/p" "db"
      (Except.ok "uri") (some "boom") none).1.2.1⟩

/-- C5: for the handler the entry point exports, exactly the fixed
allow-list `["POST", "PUT", "PATCH", "DELETE"]` passes the method gate
and proceeds to `processWebhook`; every other method (GET among them)
short-circuits to a 405 whose `allowed_methods` enumerates that same
list. -/
theorem c5_method_gate (method path dbName : String)
    (secretFetch : Except String String) (snsConfigured snsOk : Bool) :
    (validateMethod method = true →
      modularHandler method secretFetch snsConfigured snsOk path dbName
        = modularProcessWebhook secretFetch snsConfigured snsOk path dbName)
    ∧ (validateMethod method = false →
      (modularHandler method secretFetch snsConfigured snsOk path dbName).statusCode = 405
      ∧ (modularHandler method secretFetch snsConfigured snsOk path dbName).allowedList
        = some ["POST", "PUT", "PATCH", "DELETE"])
    ∧ validateMethod "GET" = false := by
  refine ⟨?_, ?_, by decide⟩
  · intro hv
    have hne : (method == "GET") = false := by
      cases hg : (method == "GET") with
      | false => rfl
      | true =>
          rw [eq_of_beq hg] at hv
          exact absurd hv (by decide)
    simp [modularHandler, hne, hv]
  · intro hv
    cases hg : (method == "GET") with
    | false => exact ⟨by simp [modularHandler, hg, hv, rejectMethod],
        by simp [modularHandler, hg, hv, rejectMethod, allowedMethods]⟩
    | true => exact ⟨by simp [modularHandler, hg, rejectGET],
        by simp [modularHandler, hg, rejectGET, allowedMethods]⟩

/-- C5, witness: the gate at the concrete methods `"POST"` (passes) and
`"HEAD"` (rejected with the fixed list). -/
theorem c5_method_gate_witness :
    modularHandler "POST" (Except.ok "uri") true true "/p" "db"
      = modularProcessWebhook (Except.ok "uri") true true "/p" "db"
    ∧ (modularHandler "HEAD" (Except.ok "uri") true true "/p" "db").statusCode = 405
    ∧ (modularHandler "HEAD" (Except.ok "uri") true true "/p" "db").allowedList
      = some ["POST", "PUT", "PATCH", "DELETE"] :=
  ⟨(c5_method_gate "POST" "/p" "db" (Except.ok "uri") true true).1 (by decide),
   ((c5_method_gate "HEAD" "/p" "db" (Except.ok "uri") true true).2.1 (by decide)).1,
   ((c5_method_gate "HEAD" "/p" "db" (Except.ok "uri") true true).2.1 (by decide)).2⟩

/-- C9: in the modular handler the durable-store branch is the stub
`storeWebhook`, which always succeeds, so every request reaching the
response composition reports `operations_status.mongodb = "success"` and
the store-only-failed and both-failed response messages are unreachable. -/
theorem c9_store_stub_always_success (uri path dbName : String) (snsConfigured snsOk : Bool) :
    storeWebhook.success = true
    ∧ (modularProcessWebhook (Except.ok uri) snsConfigured snsOk path dbName).opsMongo
      = some "success"
    ∧ ((modularProcessWebhook (Except.ok uri) snsConfigured snsOk path dbName).message
        = webhookMessage true true
      ∨ (modularProcessWebhook (Except.ok uri) snsConfigured snsOk path dbName).message
        = webhookMessage true false)
    ∧ (modularProcessWebhook (Except.ok uri) snsConfigured snsOk path dbName).message
      ≠ webhookMessage false true
    ∧ (modularProcessWebhook (Except.ok uri) snsConfigured snsOk path dbName).message
      ≠ webhookMessage false false := by
  refine ⟨rfl, rfl, ?_, ?_, ?_⟩
  · cases snsConfigured with
    | false => exact Or.inl (by
        simp [modularProcessWebhook, snsBranchResult, composeDispatchResponse, storeWebhook])
    | true =>
        cases snsOk with
        | true => exact Or.inl (by
            simp [modularProcessWebhook, snsBranchResult, composeDispatchResponse, storeWebhook])
        | false => exact Or.inr (by
            simp [modularProcessWebhook, snsBranchResult, composeDispatchResponse, storeWebhook])
  · cases snsConfigured <;> cases snsOk <;>
      simp [modularProcessWebhook, snsBranchResult, composeDispatchResponse, storeWebhook] <;> decide
  · cases snsConfigured <;> cases snsOk <;>
      simp [modularProcessWebhook, snsBranchResult, composeDispatchResponse, storeWebhook] <;> decide

/-- C9, witness: with a configured but failing fan-out, the store status
is still `"success"`. -/
theorem c9_store_stub_always_success_witness :
    (modularProcessWebhook (Except.ok "uri") true false "/p" "db").opsMongo = some "success" :=
  (c9_store_stub_always_success "uri" "/p" "db" true false).2.1

/-! ## Claims C2, C10 — retry eligibility and the NaN age gate

`String.prototype.includes` is case-sensitive, and the classifier matches
the lowercase literal `"timeout"`; the reason text `"Timeout"` therefore
classifies as `"unknown"` with `shouldRetry = false`, refuting the
claim's first scenario. With a lowercase `"timeout"` reason the claimed
behavior holds. -/

/-- C2, counterexample: reason `"Timeout"` (capital T), receiveCount 1,
fresh timestamp — `shouldRetry` is `false` and no redelivery is
attempted, because the classifier's substring match is case-sensitive. -/
theorem c2_retry_eligibility_counterexample :
    (analyzeFailure 0 ⟨"m1", 1, some 0, some "arn:topic", "Timeout", none, none⟩
      (some "/messages")).shouldRetry = false
    ∧ (processDLQDecision 0 ⟨"m1", 1, some 0, some "arn:topic", "Timeout", none, none⟩
        (some "/messages")).1 = RetryDecision.notRetried :=
  ⟨by decide, by decide⟩

/-- C2 (amended): for a reason containing the lowercase substring
`"timeout"`, receiveCount 1, a fresh timestamp and a present original
topic, `shouldRetry` is `true` and the event is republished to that
topic; with receiveCount 3 no redelivery is attempted; and a timestamp
older than 24 hours forces `shouldRetry` to `false` regardless of the
classification. -/
theorem c2_retry_eligibility_amended (now t : Int) (info : FailureInfo)
    (eventPath : Option String) (arn : String)
    (h1 : strIncludes info.failureReason "timeout" = true)
    (h2 : info.receiveCount = 1)
    (h3 : info.sentTimestamp = some t)
    (h4 : now - t ≤ dayMs)
    (h5 : info.originalTopicArn = some arn) :
    (analyzeFailure now info eventPath).shouldRetry = true
    ∧ (processDLQDecision now info eventPath).1 = RetryDecision.retried arn
    ∧ (∀ info2 : FailureInfo, info2.receiveCount = 3 →
        (processDLQDecision now info2 eventPath).1 = RetryDecision.notRetried)
    ∧ (∀ (info3 : FailureInfo) (t3 : Int), info3.sentTimestamp = some t3 →
        now - t3 > dayMs → (analyzeFailure now info3 eventPath).shouldRetry = false) := by
  have hA : (analyzeFailure now info eventPath).shouldRetry = true := by
    unfold analyzeFailure
    rw [h3]
    have hlt : ¬ (now - t > dayMs) := not_lt.mpr h4
    simp [hlt, classifyFailure, h1]
  refine ⟨hA, ?_, ?_, ?_⟩
  · unfold processDLQDecision
    simp [hA, h2, h5]
  · intro info2 hrc
    unfold processDLQDecision
    simp [hrc]
  · intro info3 t3 ht3 hold
    unfold analyzeFailure
    rw [ht3]
    simp [hold]

/-- C2, witness: the amended theorem at a concrete fresh `"timeout error"`
entry with receiveCount 1. -/
theorem c2_retry_eligibility_amended_witness :
    (analyzeFailure 0 ⟨"m1", 1, some 0, some "arn:topic", "timeout error", none, none⟩
      (some "/messages")).shouldRetry = true
    ∧ (processDLQDecision 0 ⟨"m1", 1, some 0, some "arn:topic", "timeout error", none, none⟩
        (some "/messages")).1 = RetryDecision.retried "arn:topic" := by
  have h := c2_retry_eligibility_amended 0 0
    ⟨"m1", 1, some 0, some "arn:topic", "timeout error", none, none⟩
    (some "/messages") "arn:topic" (by decide) rfl rfl (by decide) rfl
  exact ⟨h.1, h.2.1⟩

/-- C10: when `sentTimestamp` is absent or does not parse (a JavaScript
`NaN` age, modelled by `none`), the 24-hour age gate never fires: the
analysis is exactly the classification plus the critical-path flag, so
`shouldRetry` is determined solely by the failure-reason classification. -/
theorem c10_nan_age_gate_skipped (now : Int) (info : FailureInfo) (eventPath : Option String)
    (h : info.sentTimestamp = none) :
    analyzeFailure now info eventPath
      = { classifyFailure info.failureReason with isCritical := pathCritical eventPath }
    ∧ (analyzeFailure now info eventPath).shouldRetry
      = (classifyFailure info.failureReason).shouldRetry := by
  unfold analyzeFailure
  rw [h]
  exact ⟨rfl, rfl⟩

/-- C10, witness: an entry with no timestamp and a timeout-classified
reason keeps `shouldRetry = true` however large `now` is. -/
theorem c10_nan_age_gate_skipped_witness :
    (analyzeFailure 99999999999999 ⟨"m1", 1, none, none, "timeout", none, none⟩
      none).shouldRetry = true := by
  have h := c10_nan_age_gate_skipped 99999999999999
    ⟨"m1", 1, none, none, "timeout", none, none⟩ none rfl
  rw [h.2]
  decide

/-! ## Claim C8 — validateHeaders

The oversize and the two case-insensitive substring checks are per-entry,
but the HTML-tag regex `/<[^>]*>/g` carries the `g` flag: the single
regex object is reused across all keys and values of one call, and a
match advances its `lastIndex`, so the very next test resumes mid-string
and can miss a tag. Two entries that each contain a tag are then not both
flagged, contradicting the claim (and the clear intent of an advisory
per-entry check). -/

/-- C8, evaluation at the failing input: in the two-entry map
`[("a", "<b>"), ("c", "<d>")]` only header `"a"` is flagged for HTML
tags, although `"<d>"` contains a tag and the single-entry map
`[("c", "<d>")]` is flagged — the `g`-flag `lastIndex` carried over from
the first entry makes the second test resume at index 3 of `"<d>"`. -/
theorem c8_validate_headers_html_state_bug :
    validateHeaders [("a", "<b>"), ("c", "<d>")]
      = ["HTML tags detected in headers in header \"a\""]
    ∧ containsHtmlTag "<d>" = true
    ∧ validateHeaders [("c", "<d>")]
      = ["HTML tags detected in headers in header \"c\""] :=
  ⟨by decide, by decide, by decide⟩

/-! ## Claims C6, C7 — the batch loop -/

/-- Did the `Except` computation succeed? -/
def exceptOk {ε α : Type} : Except ε α → Bool
  | .ok _ => true
  | .error _ => false

/-- The event trace of one loop step does not depend on the delete
outcome (both delete branches emit the same two events), so the trace of
a batch decomposes record by record. -/
theorem dlqLoop_cons_trace (process : DLQRecord → Except String FailureAnalysis)
    (deleteOutcome : String → Except String Unit) (dlqConfigured : Bool)
    (idx : Nat) (r : DLQRecord) (rs : List DLQRecord) :
    (dlqLoop process deleteOutcome dlqConfigured idx (r :: rs)).2
      = (match process r with
         | .error _ => [DLQEvent.failedEvt idx]
         | .ok _ =>
            if dlqConfigured then
              [DLQEvent.processedEvt idx, DLQEvent.deleteIssued idx r.receiptHandle]
            else [DLQEvent.processedEvt idx])
        ++ (dlqLoop process deleteOutcome dlqConfigured (idx + 1) rs).2 := by
  cases hp : process r with
  | error e => simp [dlqLoop, hp]
  | ok a =>
      cases dlqConfigured with
      | false => simp [dlqLoop, hp]
      | true =>
          cases hd : deleteOutcome r.receiptHandle with
          | ok u => simp [dlqLoop, hp, hd]
          | error e => simp [dlqLoop, hp, hd]

/-- When every issued delete succeeds, the loop's `results` array has
exactly one entry per record: `"processed"` for a record whose processing
returned, `"failed"` for one whose processing threw. -/
theorem dlqLoop_results_of_delete_ok (process : DLQRecord → Except String FailureAnalysis)
    (deleteOutcome : String → Except String Unit) (dlqConfigured : Bool)
    (hdel : ∀ s, deleteOutcome s = Except.ok ()) :
    ∀ (records : List DLQRecord) (startIdx : Nat),
      (dlqLoop process deleteOutcome dlqConfigured startIdx records).1
        = records.map (fun r =>
            ⟨if exceptOk (process r) then "processed" else "failed", r.messageId⟩) := by
  intro records
  induction records with
  | nil => intro startIdx; rfl
  | cons r rs ih =>
      intro startIdx
      cases hp : process r with
      | error e => simp [dlqLoop, hp, exceptOk, ih]
      | ok a =>
          cases dlqConfigured with
          | false => simp [dlqLoop, hp, exceptOk, ih]
          | true => simp [dlqLoop, hp, hdel r.receiptHandle, exceptOk, ih]

/-- In the mapped results every entry is `"processed"` or `"failed"`, so
the two filtered counts add up to the batch size. -/
theorem dlqResults_counts (process : DLQRecord → Except String FailureAnalysis) :
    ∀ records : List DLQRecord,
      ((records.map (fun r =>
          (⟨if exceptOk (process r) then "processed" else "failed", r.messageId⟩
            : DLQResultEntry))).filter (fun e => e.status == "processed")).length
      + ((records.map (fun r =>
          (⟨if exceptOk (process r) then "processed" else "failed", r.messageId⟩
            : DLQResultEntry))).filter (fun e => e.status == "failed")).length
      = records.length := by
  intro records
  induction records with
  | nil => rfl
  | cons r rs ih =>
      cases h : exceptOk (process r) with
      | true => simp [h, List.filter, ih]; omega
      | false => simp [h, List.filter, ih]; omega

/-- C6, counterexample: one record whose processing succeeds but whose
SQS delete throws lands in the `catch` after its result was already
pushed, so the handler records two results for one record —
`processed = 1`, `failed = 1`, `total = 2 ≠ N = 1`. -/
theorem c6_batch_contract_counterexample :
    dlqSummary (dlqLoop (fun _ => Except.ok ⟨false, false, "unknown", []⟩)
        (fun _ => Except.error "network error") true 0 [⟨"m1", "h1"⟩]).1 = (1, 1, 2)
    ∧ (2 : Nat) ≠ 1 :=
  ⟨by decide, by decide⟩

/-- C6 (amended): provided every issued delete completes without
throwing, the batch of `N` records is processed independently — one
record's exception does not abort the rest, the loop produces exactly one
result per record (`"processed"` iff its processing returned, `"failed"`
iff it threw), and the summary satisfies
`processed + failed = total = N`. -/
theorem c6_batch_contract_amended (process : DLQRecord → Except String FailureAnalysis)
    (deleteOutcome : String → Except String Unit) (dlqConfigured : Bool)
    (records : List DLQRecord)
    (hdel : ∀ s, deleteOutcome s = Except.ok ()) :
    (dlqLoop process deleteOutcome dlqConfigured 0 records).1
      = records.map (fun r =>
          ⟨if exceptOk (process r) then "processed" else "failed", r.messageId⟩)
    ∧ (dlqSummary (dlqLoop process deleteOutcome dlqConfigured 0 records).1).1
      + (dlqSummary (dlqLoop process deleteOutcome dlqConfigured 0 records).1).2.1
      = records.length
    ∧ (dlqSummary (dlqLoop process deleteOutcome dlqConfigured 0 records).1).2.2
      = records.length := by
  have hres := dlqLoop_results_of_delete_ok process deleteOutcome dlqConfigured hdel records 0
  refine ⟨hres, ?_, ?_⟩
  · rw [hres]
    exact dlqResults_counts process records
  · rw [hres]
    simp [dlqSummary]

/-- C6, witness: a two-record batch whose first record processes and
whose second throws, with reliable deletes. -/
theorem c6_batch_contract_amended_witness :
    (dlqLoop (fun r => if r.messageId == "m1"
        then Except.ok ⟨false, false, "unknown", []⟩ else Except.error "boom")
      (fun _ => Except.ok ()) true 0 [⟨"m1", "h1"⟩, ⟨"m2", "h2"⟩]).1
      = [⟨"processed", "m1"⟩, ⟨"failed", "m2"⟩]
    ∧ (dlqSummary (dlqLoop (fun r => if r.messageId == "m1"
          then Except.ok ⟨false, false, "unknown", []⟩ else Except.error "boom")
        (fun _ => Except.ok ()) true 0 [⟨"m1", "h1"⟩, ⟨"m2", "h2"⟩]).1).2.2 = 2 := by
  have h := c6_batch_contract_amended
    (fun r => if r.messageId == "m1"
        then Except.ok ⟨false, false, "unknown", []⟩ else Except.error "boom")
    (fun _ => Except.ok ()) true [⟨"m1", "h1"⟩, ⟨"m2", "h2"⟩] (fun _ => rfl)
  exact ⟨by rw [h.1]; decide, by rw [h.2.2]; rfl⟩

/-- Any delete event in the batch trace belongs to a record of the batch
whose processing succeeded, carries that record's receipt handle, and is
preceded in the trace by that record's processed event. -/
theorem dlqLoop_deleteIssued_spec (process : DLQRecord → Except String FailureAnalysis)
    (deleteOutcome : String → Except String Unit) (dlqConfigured : Bool) :
    ∀ (records : List DLQRecord) (startIdx i : Nat) (rh : String),
      DLQEvent.deleteIssued i rh
          ∈ (dlqLoop process deleteOutcome dlqConfigured startIdx records).2 →
      ∃ (j : Nat) (hj : j < records.length),
        i = startIdx + j
        ∧ exceptOk (process (records.get ⟨j, hj⟩)) = true
        ∧ rh = (records.get ⟨j, hj⟩).receiptHandle
        ∧ [DLQEvent.processedEvt i, DLQEvent.deleteIssued i rh].Sublist
            (dlqLoop process deleteOutcome dlqConfigured startIdx records).2 := by
  intro records
  induction records with
  | nil =>
      intro startIdx i rh hmem
      simp [dlqLoop] at hmem
  | cons r rs ih =>
      intro startIdx i rh hmem
      rw [dlqLoop_cons_trace, List.mem_append] at hmem
      cases hmem with
      | inr htail =>
          obtain ⟨j, hj, hij, hok, hrh, hsub⟩ := ih (startIdx + 1) i rh htail
          refine ⟨j + 1, Nat.succ_lt_succ hj, by omega, ?_, ?_, ?_⟩
          · simpa [List.get_cons_succ] using hok
          · simpa [List.get_cons_succ] using hrh
          · rw [dlqLoop_cons_trace]
            exact hsub.trans (List.sublist_append_right _ _)
      | inl hhead =>
          cases hp : process r with
          | error e =>
              rw [hp] at hhead
              simp at hhead
          | ok a =>
              rw [hp] at hhead
              cases hcfg : dlqConfigured with
              | false =>
                  rw [hcfg] at hhead
                  simp at hhead
              | true =>
                  rw [hcfg] at hhead
                  simp at hhead
                  obtain ⟨hi, hrh⟩ := hhead
                  subst hi
                  subst hrh
                  refine ⟨0, Nat.succ_pos _, by omega, ?_, rfl, ?_⟩
                  · simp [List.get, hp, exceptOk]
                  · rw [dlqLoop_cons_trace]
                    simp only [hp, hcfg, if_true]
                    exact List.sublist_append_left _ _

/-- C7: removal from the dead-letter source is issued only for a record
whose `processDLQMessage` returned without throwing, with that record's
receipt handle, and only after the record's processing completed (the
processed event precedes the delete event in the trace); contrapositively
a record whose processing threw is never deleted and stays in the queue. -/
theorem c7_delete_only_after_success (process : DLQRecord → Except String FailureAnalysis)
    (deleteOutcome : String → Except String Unit) (dlqConfigured : Bool)
    (records : List DLQRecord) (i : Nat) (rh : String)
    (hmem : DLQEvent.deleteIssued i rh
      ∈ (dlqLoop process deleteOutcome dlqConfigured 0 records).2) :
    ∃ (hi : i < records.length),
      exceptOk (process (records.get ⟨i, hi⟩)) = true
      ∧ rh = (records.get ⟨i, hi⟩).receiptHandle
      ∧ [DLQEvent.processedEvt i, DLQEvent.deleteIssued i rh].Sublist
          (dlqLoop process deleteOutcome dlqConfigured 0 records).2 := by
  obtain ⟨j, hj, hij, hok, hrh, hsub⟩ :=
    dlqLoop_deleteIssued_spec process deleteOutcome dlqConfigured records 0 i rh hmem
  have hji : i = j := by omega
  subst hji
  exact ⟨hj, hok, hrh, hsub⟩

/-- C7, witness: a one-record batch with successful processing and a
configured queue — the issued delete satisfies the theorem at index 0. -/
theorem c7_delete_only_after_success_witness :
    ∃ (hi : 0 < ([⟨"m1", "h1"⟩] : List DLQRecord).length),
      exceptOk ((fun _ => (Except.ok ⟨false, false, "unknown", []⟩
          : Except String FailureAnalysis))
        (([⟨"m1", "h1"⟩] : List DLQRecord).get ⟨0, hi⟩)) = true
      ∧ "h1" = (([⟨"m1", "h1"⟩] : List DLQRecord).get ⟨0, hi⟩).receiptHandle
      ∧ [DLQEvent.processedEvt 0, DLQEvent.deleteIssued 0 "h1"].Sublist
          (dlqLoop (fun _ => Except.ok ⟨false, false, "unknown", []⟩)
            (fun _ => Except.ok ()) true 0 [⟨"m1", "h1"⟩]).2 :=
  c7_delete_only_after_success (fun _ => Except.ok ⟨false, false, "unknown", []⟩)
    (fun _ => Except.ok ()) true [⟨"m1", "h1"⟩] 0 "h1" (by decide)
